import Mathlib

/-!
# Verification of the tunnelto connection-admission layer

Shallow embedding of `tunnelto_server/src/auth/client_auth.rs` and
`tunnelto_server/src/auth/auth_db.rs`.

External collaborators (the serde decoder, the account-directory backend
call, the instance registry, the reconnect-token verifier from
`reconnect_token.rs`, the configuration, and the random generators from
`tunnelto_lib`) are modelled as oracles in an `Env` record: each theorem
quantifies over all of their possible outcomes.  The websocket is modelled
as the trace of `ServerHello` messages sent on it, together with an oracle
giving each send's transport outcome (which the source discards with
`let _ = websocket.send(..)`).
-/

/-- Opaque client identifier (`tunnelto_lib::ClientId`); its internal
structure is irrelevant here, only equality is used (the registry-conflict
comparison in `sanitize_sub_domain_and_pre_validate`). -/
structure ClientId where
  val : Nat
deriving DecidableEq, Repr

/-- The `uuid::Uuid` returned by the account directory; opaque to this
subsystem beyond existence-check semantics. -/
structure Uuid where
  val : Nat
deriving DecidableEq, Repr

/-- A reference to a serving instance, as returned by
`crate::network::instance_for_host`; opaque (the source binds it to `_`). -/
structure InstanceRef where
  val : Nat
deriving DecidableEq, Repr

/-- An opaque reconnect token (`tunnelto_lib::ReconnectToken`); only ever
passed to the verifier oracle. -/
structure ReconnectToken where
  val : Nat
deriving DecidableEq, Repr

/-- A `serde_json` decode error (opaque). -/
structure DecodeErr where
  code : Nat
deriving DecidableEq, Repr

/-- An error from `ReconnectTokenPayload::verify` (opaque). -/
structure TokenErr where
  code : Nat
deriving DecidableEq, Repr

/-- A `rusoto_core::RusotoError<GetItemError>` (opaque backend failure). -/
structure RusotoErr where
  code : Nat
deriving DecidableEq, Repr

/-- A `uuid::Error` from `Uuid::from_str` (opaque parse failure). -/
structure UuidErr where
  code : Nat
deriving DecidableEq, Repr

/-- The variants of `tunnelto_lib::ServerHello` that this subsystem ever
sends.  The full enum in `tunnelto_lib` has further variants (e.g. a
success variant), but `client_auth.rs` only ever serializes these three. -/
inductive ServerHello where
  | AuthFailed
  | InvalidSubDomain
  | SubDomainInUse
deriving DecidableEq, Repr

/-- The client-declared type discriminator (`tunnelto_lib::ClientType`).
The `Auth` credential is a raw secret string. -/
inductive ClientType where
  | Anonymous
  | Auth (key : String)
deriving DecidableEq, Repr

/-- The `ReconnectTokenPayload` from `reconnect_token.rs`: the payload a
successfully verified token yields. -/
structure ReconnectTokenPayload where
  client_id : ClientId
  sub_domain : String
deriving DecidableEq, Repr

/-- The decoded first inbound message (`tunnelto_lib::ClientHello`). -/
structure ClientHello where
  client_type : ClientType
  sub_domain : Option String
  reconnect_token : Option ReconnectToken
deriving DecidableEq, Repr

/-- The internal result of a successful admission, `ClientHandshake`
(`client_auth.rs`). -/
structure ClientHandshake where
  id : ClientId
  sub_domain : String
  is_anonymous : Bool
deriving DecidableEq, Repr

/-- The `Error` enum of `auth_db.rs`. -/
inductive AuthDbError where
  | AuthDbGetItem (e : RusotoErr)
  | AccountNotFound
  | InvalidAccountId (e : UuidErr)
  | SubdomainNotAuthorized
deriving DecidableEq, Repr

/-- The registry error `crate::network::Error`: the only variant `client_auth.rs` matches on
is `DoesNotServeHost`; every other variant is collapsed into `Other`
(the source treats them uniformly in the catch-all `Err(e)` arm). -/
inductive NetworkErr where
  | DoesNotServeHost
  | Other (code : Nat)
deriving DecidableEq, Repr

/-- The `rusoto_dynamodb::AttributeValue`, restricted to the one field
(`s : Option<String>`) that `auth_db.rs` reads; `Default::default()` sets
every field to `None`, hence the `none` default here. -/
structure AttributeValue where
  s : Option String
deriving DecidableEq, Repr

instance : Inhabited AttributeValue := ⟨⟨none⟩⟩

/-- The `rusoto_dynamodb::GetItemOutput`, restricted to the `item` field that
`auth_db.rs` reads; the `HashMap<String, AttributeValue>` is modelled as an
association list queried with `List.lookup`. -/
structure GetItemOutput where
  item : Option (List (String × AttributeValue))
deriving DecidableEq, Repr

/-- The constant `key_db::ACCOUNT_ID` from `auth_db.rs`. -/
def ACCOUNT_ID : String := "account_id"

/-- Rust's `char::is_alphanumeric` (Unicode `Alphabetic` or numeric
`Nd`/`Nl`/`No`), transcribed exactly on the ASCII and Latin-1 ranges,
which are the only code points this development ever evaluates it on:
ASCII digits and letters; `ª µ º`, `À`–`Ö`, `Ø`–`ö`, `ø`–`ÿ` (Alphabetic);
`² ³ ¹`, `¼`–`¾` (category No).  Code points above U+00FF are not
classified (the definition returns `false` there); no theorem below
depends on the classifier's value outside Latin-1, because every
universally quantified statement conditions on this very predicate and
every concrete witness stays inside Latin-1. -/
def rust_char_is_alphanumeric (c : Char) : Bool :=
  let n := c.toNat
  (0x30 ≤ n && n ≤ 0x39) || (0x41 ≤ n && n ≤ 0x5A) || (0x61 ≤ n && n ≤ 0x7A)
  || n == 0xAA || n == 0xB5 || n == 0xBA
  || (0xC0 ≤ n && n ≤ 0xD6) || (0xD8 ≤ n && n ≤ 0xF6) || (0xF8 ≤ n && n ≤ 0xFF)
  || n == 0xB2 || n == 0xB3 || n == 0xB9 || (0xBC ≤ n && n ≤ 0xBE)

/-- Rust's per-character lowercase mapping restricted to ASCII and
Latin-1, where it is one-to-one: `A`–`Z` and `À`–`Þ` (except `×`) shift by
32, the micro sign `µ` maps to Greek `μ`, everything else in the range is
unchanged.  Code points above U+00FF are left unchanged (not modelled);
no theorem below evaluates lowercasing outside Latin-1. -/
def rust_char_to_lowercase (c : Char) : Char :=
  let n := c.toNat
  if 0x41 ≤ n && n ≤ 0x5A then Char.ofNat (n + 32)
  else if (0xC0 ≤ n && n ≤ 0xDE) && !(n == 0xD7) then Char.ofNat (n + 32)
  else if n == 0xB5 then Char.ofNat 0x3BC
  else c

/-- Rust's `str::to_lowercase` (character-wise; on the modelled Latin-1
range the mapping is one-to-one, so the string map suffices). -/
def rust_to_lowercase (s : String) : String :=
  ⟨s.data.map rust_char_to_lowercase⟩

/-- The websocket, modelled by the trace of `ServerHello` messages sent on
it plus an oracle giving the transport outcome of each send (`true` =
delivered).  The source never reads that outcome (`let _ = ...send(..)`),
which claim C10 makes precise. -/
structure WsState where
  sent : List ServerHello
  sendResults : Nat → Bool

/-- Models `websocket.send(Message::binary(data)).await`: appends the message to
the trace and reports the transport outcome, which every caller in
`client_auth.rs` discards. -/
def wsSend (ws : WsState) (msg : ServerHello) : WsState × Bool :=
  ({ ws with sent := ws.sent ++ [msg] }, ws.sendResults ws.sent.length)

/-- The external collaborators of one handshake attempt, as oracles:
* `lookup key` — the result of `AUTH_DB_SERVICE.get_account_id_for_auth_key(&key)`;
* `verify token` — the result of `ReconnectTokenPayload::verify(token, &CONFIG.master_sig_key)`
  (the process signing key is fixed inside the closure);
* `instance_for_host sd` — the result of `crate::network::instance_for_host(&sd)`;
* `blocked_sub_domains` — `CONFIG.blocked_sub_domains`;
* `client_id_of_key key` — `key.client_id()` from `tunnelto_lib`;
* `generate_client_id` — the value `ClientId::generate()` returns in this attempt;
* `random_domain` — the value `ServerHello::random_domain()` returns in this attempt. -/
structure Env where
  lookup : String → Except AuthDbError Uuid
  verify : ReconnectToken → Except TokenErr ReconnectTokenPayload
  instance_for_host : String → Except NetworkErr (InstanceRef × ClientId)
  blocked_sub_domains : List String
  client_id_of_key : String → ClientId
  generate_client_id : ClientId
  random_domain : String

/-- The function `sanitize_sub_domain_and_pre_validate` from `client_auth.rs`:
lowercase, reject non-(alphanumeric|hyphen) characters with
`InvalidSubDomain`, reject blocked names with `SubDomainInUse`, then query
the instance registry: no binding or same owner or registry error proceed,
a binding by a different client rejects with `SubDomainInUse`. -/
def sanitize_sub_domain_and_pre_validate (env : Env) (ws : WsState)
    (requested_sub_domain : String) (client_id : ClientId) :
    WsState × Option String :=
  let sub_domain := rust_to_lowercase requested_sub_domain
  if (sub_domain.data.filter
        (fun c => !(rust_char_is_alphanumeric c || c == '-'))).length > 0 then
    let (ws, _) := wsSend ws ServerHello.InvalidSubDomain
    (ws, none)
  else if env.blocked_sub_domains.contains sub_domain then
    let (ws, _) := wsSend ws ServerHello.SubDomainInUse
    (ws, none)
  else
    match env.instance_for_host sub_domain with
    | .error .DoesNotServeHost => (ws, some sub_domain)
    | .ok (_, existing_client) =>
      if existing_client ≠ client_id then
        let (ws, _) := wsSend ws ServerHello.SubDomainInUse
        (ws, none)
      else
        (ws, some sub_domain)
    | .error _ => (ws, some sub_domain)

/-- The function `handle_reconnect_token` from `client_auth.rs`: verify the token under
the process signing key; on failure send `AuthFailed` and reject; on
success admit with the payload's identity, `is_anonymous = true`. -/
def handle_reconnect_token (env : Env) (token : ReconnectToken)
    (ws : WsState) : WsState × Option ClientHandshake :=
  match env.verify token with
  | .error _ =>
    let (ws, _) := wsSend ws ServerHello.AuthFailed
    (ws, none)
  | .ok payload =>
    (ws, some { id := payload.client_id,
                sub_domain := payload.sub_domain,
                is_anonymous := true })

/-- The function `auth_client` from `client_auth.rs`.  Its `&[u8]` input is represented
by the outcome of the `serde_json::from_slice` decode (an external
library), everything after the decode is transcribed branch for branch. -/
def auth_client (env : Env) (parsed : Except DecodeErr ClientHello)
    (ws : WsState) : WsState × Option ClientHandshake :=
  match parsed with
  | .error _ =>
    let (ws, _) := wsSend ws ServerHello.AuthFailed
    (ws, none)
  | .ok client_hello =>
    match client_hello.client_type with
    | .Anonymous => (ws, none)
    | .Auth key =>
      match env.lookup key with
      | .error _ => (ws, none)
      | .ok _ =>
        match client_hello.sub_domain with
        | some requested_sub_domain =>
          let client_id := env.client_id_of_key key
          match sanitize_sub_domain_and_pre_validate env ws
              requested_sub_domain client_id with
          | (ws, some sub_domain) =>
            (ws, some { id := client_id,
                        sub_domain := sub_domain,
                        is_anonymous := false })
          | (ws, none) => (ws, none)
        | none =>
          match client_hello.reconnect_token with
          | some token => handle_reconnect_token env token ws
          | none =>
            (ws, some { id := env.generate_client_id,
                        sub_domain := env.random_domain,
                        is_anonymous := true })

/-- The method `get_account_id_for_auth_key` from `auth_db.rs`, starting at the
DynamoDB `get_item` call: the backend call's outcome and `Uuid::from_str`
(an external library) are oracles; the extraction chain
`result.item.unwrap_or(HashMap::new()).get(ACCOUNT_ID).cloned().unwrap_or(AttributeValue::default()).s.ok_or(AccountNotFound)`
is transcribed step for step. -/
def get_account_id_for_auth_key
    (parseUuid : String → Except UuidErr Uuid)
    (getItemResult : Except RusotoErr GetItemOutput) :
    Except AuthDbError Uuid :=
  match getItemResult with
  | .error e => .error (.AuthDbGetItem e)
  | .ok result =>
    match (((result.item.getD []).lookup ACCOUNT_ID).getD default).s with
    | none => .error .AccountNotFound
    | some account_str =>
      match parseUuid account_str with
      | .error e => .error (.InvalidAccountId e)
      | .ok uuid => .ok uuid

/-! ## Concrete environments used by witnesses and counterexamples -/

/-- A benign environment: the directory resolves every key, the verifier
accepts every token with payload `{client_id = 7, sub_domain = "prev"}`,
the registry serves no host, and the blocked set is `{"blocked"}`. -/
def env0 : Env where
  lookup := fun _ => .ok ⟨0⟩
  verify := fun _ => .ok ⟨⟨7⟩, "prev"⟩
  instance_for_host := fun _ => .error .DoesNotServeHost
  blocked_sub_domains := ["blocked"]
  client_id_of_key := fun _ => ⟨1⟩
  generate_client_id := ⟨2⟩
  random_domain := "rand0m"

/-- A fresh websocket with an all-successful transport. -/
def ws0 : WsState := ⟨[], fun _ => true⟩

/-! ## Helper lemmas about the negotiator's branches -/

/-- If some character of the name fails Rust's alphanumeric-or-hyphen
test, the negotiator's character filter is nonempty. -/
lemma filter_pos_of_bad_char {s : String} {c : Char}
    (hc : c ∈ s.data) (h1 : rust_char_is_alphanumeric c = false)
    (h2 : c ≠ '-') :
    0 < (s.data.filter
      (fun c => !(rust_char_is_alphanumeric c || c == '-'))).length := by
  have hpc : (!(rust_char_is_alphanumeric c || c == '-')) = true := by
    simp [h1, h2]
  exact List.length_pos.mpr
    (List.ne_nil_of_mem (List.mem_filter_of_mem hc hpc))

/-- If every character of the name passes Rust's alphanumeric-or-hyphen
test, the negotiator's character filter is empty. -/
lemma filter_nil_of_good_chars {s : String}
    (h : ∀ c ∈ s.data, rust_char_is_alphanumeric c = true ∨ c = '-') :
    s.data.filter (fun c => !(rust_char_is_alphanumeric c || c == '-')) = [] := by
  refine List.filter_eq_nil_iff.mpr (fun a ha => ?_)
  rcases h a ha with h1 | h1 <;> simp [h1]

/-- The negotiator on a name with a disallowed character: sends
`InvalidSubDomain`, returns no subdomain. -/
lemma sanitize_invalid_char (env : Env) (ws : WsState) (r : String)
    (cid : ClientId)
    (hpos : 0 < ((rust_to_lowercase r).data.filter
      (fun c => !(rust_char_is_alphanumeric c || c == '-'))).length) :
    sanitize_sub_domain_and_pre_validate env ws r cid =
      ({ ws with sent := ws.sent ++ [ServerHello.InvalidSubDomain] }, none) := by
  simp only [sanitize_sub_domain_and_pre_validate, wsSend]
  rw [if_pos hpos]

/-- The negotiator on a clean-charactered but blocked name: sends
`SubDomainInUse`, returns no subdomain. -/
lemma sanitize_blocked (env : Env) (ws : WsState) (r : String)
    (cid : ClientId)
    (hchars : ∀ c ∈ (rust_to_lowercase r).data,
      rust_char_is_alphanumeric c = true ∨ c = '-')
    (hmem : rust_to_lowercase r ∈ env.blocked_sub_domains) :
    sanitize_sub_domain_and_pre_validate env ws r cid =
      ({ ws with sent := ws.sent ++ [ServerHello.SubDomainInUse] }, none) := by
  simp only [sanitize_sub_domain_and_pre_validate, wsSend]
  rw [filter_nil_of_good_chars hchars]
  simp only [List.length_nil, gt_iff_lt, Nat.lt_irrefl, if_false]
  rw [if_pos (List.elem_eq_true_of_mem hmem)]

/-- The negotiator past the character and blocklist checks: the registry
query alone decides the outcome. -/
lemma sanitize_pass (env : Env) (ws : WsState) (r : String) (cid : ClientId)
    (hchars : ∀ c ∈ (rust_to_lowercase r).data,
      rust_char_is_alphanumeric c = true ∨ c = '-')
    (hmem : rust_to_lowercase r ∉ env.blocked_sub_domains) :
    sanitize_sub_domain_and_pre_validate env ws r cid =
      match env.instance_for_host (rust_to_lowercase r) with
      | .error .DoesNotServeHost => (ws, some (rust_to_lowercase r))
      | .ok (_, existing_client) =>
        if existing_client ≠ cid then
          ({ ws with sent := ws.sent ++ [ServerHello.SubDomainInUse] }, none)
        else
          (ws, some (rust_to_lowercase r))
      | .error _ => (ws, some (rust_to_lowercase r)) := by
  simp only [sanitize_sub_domain_and_pre_validate, wsSend]
  rw [filter_nil_of_good_chars hchars]
  simp only [List.length_nil, gt_iff_lt, Nat.lt_irrefl, if_false]
  rw [if_neg (fun hcont => hmem (List.mem_of_elem_eq_true hcont))]

/-! ## C1 — character validation -/

/-- C1 counterexample: the claim "every requested subdomain that, after
lowercasing, contains a character outside `[a-z0-9-]` is rejected with
`InvalidSubDomain`" is false: the request `"é"` contains `é`, which is
outside `[a-z0-9-]`, yet Rust's `char::is_alphanumeric` accepts it
(Unicode letter), so the negotiation succeeds and returns `"é"` instead of
rejecting. -/
theorem C1_counterexample :
    ¬ (∀ (env : Env) (ws : WsState) (r : String) (cid : ClientId),
        (∃ c ∈ (rust_to_lowercase r).data,
          ¬ (('a' ≤ c ∧ c ≤ 'z') ∨ ('0' ≤ c ∧ c ≤ '9') ∨ c = '-')) →
        (sanitize_sub_domain_and_pre_validate env ws r cid).2 = none) := by
  intro h
  have hc := h env0 ws0 "é" ⟨1⟩ (by decide)
  have he : (sanitize_sub_domain_and_pre_validate env0 ws0 "é" ⟨1⟩).2
      = some "é" := by decide
  rw [he] at hc
  exact Option.noConfusion hc

/-- C1 (amended): for every requested subdomain that, after lowercasing,
contains a character that is not alphanumeric in Rust's
`char::is_alphanumeric` sense and is not a hyphen, the subdomain
negotiation sends `ServerHello::InvalidSubDomain` and rejects the
handshake (returns no subdomain). -/
theorem C1_bad_char_rejected (env : Env) (ws : WsState) (r : String)
    (cid : ClientId)
    (h : ∃ c ∈ (rust_to_lowercase r).data,
      rust_char_is_alphanumeric c = false ∧ c ≠ '-') :
    (sanitize_sub_domain_and_pre_validate env ws r cid).1.sent
        = ws.sent ++ [ServerHello.InvalidSubDomain]
    ∧ (sanitize_sub_domain_and_pre_validate env ws r cid).2 = none := by
  obtain ⟨c, hc, h1, h2⟩ := h
  rw [sanitize_invalid_char env ws r cid (filter_pos_of_bad_char hc h1 h2)]
  exact ⟨rfl, rfl⟩

/-- C1 witness: the request `"a_b"` (underscore is not alphanumeric, not a
hyphen) is rejected with `InvalidSubDomain`. -/
theorem C1_witness :
    (sanitize_sub_domain_and_pre_validate env0 ws0 "a_b" ⟨1⟩).1.sent
        = [ServerHello.InvalidSubDomain]
    ∧ (sanitize_sub_domain_and_pre_validate env0 ws0 "a_b" ⟨1⟩).2 = none := by
  have h := C1_bad_char_rejected env0 ws0 "a_b" ⟨1⟩
    ⟨'_', by decide, by decide, by decide⟩
  simpa using h

/-! ## C5 — blocked subdomains -/

/-- C5 counterexample: the claim "every requested subdomain whose
lowercased form is in the blocked set is answered with `SubDomainInUse`"
is false when the blocked entry itself contains a disallowed character:
with blocked set `{"a_b"}` and request `"a_b"` (which is in the set), the
character check fires first and the connection receives
`InvalidSubDomain`, not `SubDomainInUse`. -/
theorem C5_counterexample :
    ¬ (∀ (env : Env) (ws : WsState) (r : String) (cid : ClientId),
        rust_to_lowercase r ∈ env.blocked_sub_domains →
        (sanitize_sub_domain_and_pre_validate env ws r cid).1.sent
          = ws.sent ++ [ServerHello.SubDomainInUse]) := by
  intro h
  have hc := h { env0 with blocked_sub_domains := ["a_b"] } ws0 "a_b" ⟨1⟩
    (by decide)
  have he : (sanitize_sub_domain_and_pre_validate
      { env0 with blocked_sub_domains := ["a_b"] } ws0 "a_b" ⟨1⟩).1.sent
      = [ServerHello.InvalidSubDomain] := by decide
  rw [he] at hc
  exact absurd hc (by decide)

/-- C5 (amended): for every requested subdomain whose lowercased form
passes the character check (every character alphanumeric-or-hyphen) and is
in the configured blocked-subdomain set, negotiation sends
`ServerHello::SubDomainInUse` and rejects, for every requesting client
identity — the same wire signal as a real ownership conflict. -/
theorem C5_blocked_rejected (env : Env) (ws : WsState) (r : String)
    (cid : ClientId)
    (hchars : ∀ c ∈ (rust_to_lowercase r).data,
      rust_char_is_alphanumeric c = true ∨ c = '-')
    (hmem : rust_to_lowercase r ∈ env.blocked_sub_domains) :
    (sanitize_sub_domain_and_pre_validate env ws r cid).1.sent
        = ws.sent ++ [ServerHello.SubDomainInUse]
    ∧ (sanitize_sub_domain_and_pre_validate env ws r cid).2 = none := by
  rw [sanitize_blocked env ws r cid hchars hmem]
  exact ⟨rfl, rfl⟩

/-- C5 witness: the request `"Blocked"` lowercases to `"blocked"`, which
is in `env0`'s blocked set, and is answered with `SubDomainInUse`. -/
theorem C5_witness :
    (sanitize_sub_domain_and_pre_validate env0 ws0 "Blocked" ⟨1⟩).1.sent
        = [ServerHello.SubDomainInUse]
    ∧ (sanitize_sub_domain_and_pre_validate env0 ws0 "Blocked" ⟨1⟩).2 = none := by
  have h := C5_blocked_rejected env0 ws0 "Blocked" ⟨1⟩ (by decide) (by decide)
  simpa using h

/-! ## C2 — registry-driven outcome -/

/-- C2: for every requested subdomain that passes the character and
blocklist checks, the instance-registry query decides the outcome four
ways: no serving instance (`DoesNotServeHost`) succeeds; an instance
serving it for the same client identity succeeds; an instance serving it
for a different client identity sends `SubDomainInUse` and rejects; any
other registry error proceeds and succeeds anyway.  Every success returns
the lowercased requested name and sends nothing. -/
theorem C2_registry_decides (env : Env) (ws : WsState) (r : String)
    (cid : ClientId)
    (hchars : ∀ c ∈ (rust_to_lowercase r).data,
      rust_char_is_alphanumeric c = true ∨ c = '-')
    (hmem : rust_to_lowercase r ∉ env.blocked_sub_domains) :
    (env.instance_for_host (rust_to_lowercase r)
        = .error .DoesNotServeHost →
      (sanitize_sub_domain_and_pre_validate env ws r cid).1.sent = ws.sent
      ∧ (sanitize_sub_domain_and_pre_validate env ws r cid).2
          = some (rust_to_lowercase r))
    ∧ (∀ inst, env.instance_for_host (rust_to_lowercase r) = .ok (inst, cid) →
      (sanitize_sub_domain_and_pre_validate env ws r cid).1.sent = ws.sent
      ∧ (sanitize_sub_domain_and_pre_validate env ws r cid).2
          = some (rust_to_lowercase r))
    ∧ (∀ inst other, env.instance_for_host (rust_to_lowercase r)
          = .ok (inst, other) → other ≠ cid →
      (sanitize_sub_domain_and_pre_validate env ws r cid).1.sent
          = ws.sent ++ [ServerHello.SubDomainInUse]
      ∧ (sanitize_sub_domain_and_pre_validate env ws r cid).2 = none)
    ∧ (∀ e, env.instance_for_host (rust_to_lowercase r) = .error e →
          e ≠ .DoesNotServeHost →
      (sanitize_sub_domain_and_pre_validate env ws r cid).1.sent = ws.sent
      ∧ (sanitize_sub_domain_and_pre_validate env ws r cid).2
          = some (rust_to_lowercase r)) := by
  have hs := sanitize_pass env ws r cid hchars hmem
  refine ⟨fun h => ?_, fun inst h => ?_, fun inst other h hne => ?_,
    fun e h hne => ?_⟩
  · rw [hs, h]
    exact ⟨rfl, rfl⟩
  · rw [hs, h]
    simp
  · rw [hs, h]
    simp [hne]
  · rw [hs, h]
    cases e with
    | DoesNotServeHost => exact absurd rfl hne
    | Other code => exact ⟨rfl, rfl⟩

/-- C2 witness: with a registry serving `"myapp"` for client 9, client 9
reclaims `"MyApp"` (lowercased to `"myapp"`) successfully and nothing is
sent. -/
theorem C2_witness :
    (sanitize_sub_domain_and_pre_validate
      { env0 with instance_for_host := fun _ => .ok (⟨0⟩, ⟨9⟩) }
      ws0 "MyApp" ⟨9⟩).1.sent = []
    ∧ (sanitize_sub_domain_and_pre_validate
      { env0 with instance_for_host := fun _ => .ok (⟨0⟩, ⟨9⟩) }
      ws0 "MyApp" ⟨9⟩).2 = some "myapp" := by
  have h := (C2_registry_decides
    { env0 with instance_for_host := fun _ => .ok (⟨0⟩, ⟨9⟩) }
    ws0 "MyApp" ⟨9⟩ (by decide) (by decide)).2.1 ⟨0⟩ rfl
  have hl : rust_to_lowercase "MyApp" = "myapp" := by decide
  rw [hl] at h
  exact h

/-! ## C3 — anonymous hellos and failed lookups are rejected silently -/

/-- C3: a hello declaring the plain-anonymous client type is rejected
without any `ServerHello` being sent; an authenticated hello whose
directory lookup returns any error is likewise rejected without any
`ServerHello` being sent. -/
theorem C3_silent_reject (env : Env) (ws : WsState) :
    (∀ sd tok,
      (auth_client env (.ok ⟨.Anonymous, sd, tok⟩) ws).1.sent = ws.sent
      ∧ (auth_client env (.ok ⟨.Anonymous, sd, tok⟩) ws).2 = none)
    ∧ (∀ key sd tok e, env.lookup key = .error e →
      (auth_client env (.ok ⟨.Auth key, sd, tok⟩) ws).1.sent = ws.sent
      ∧ (auth_client env (.ok ⟨.Auth key, sd, tok⟩) ws).2 = none) := by
  refine ⟨fun sd tok => ⟨rfl, rfl⟩, fun key sd tok e he => ?_⟩
  simp only [auth_client, he]
  constructor <;> trivial

/-- C3 witness: with a directory that answers `AccountNotFound`, an
authenticated hello is rejected and the trace stays empty; so is a
plain-anonymous hello. -/
theorem C3_witness :
    ((auth_client { env0 with lookup := fun _ => .error .AccountNotFound }
        (.ok ⟨.Auth "k", none, none⟩) ws0).2 = none
      ∧ (auth_client { env0 with lookup := fun _ => .error .AccountNotFound }
        (.ok ⟨.Auth "k", none, none⟩) ws0).1.sent = [])
    ∧ ((auth_client env0 (.ok ⟨.Anonymous, none, none⟩) ws0).2 = none
      ∧ (auth_client env0 (.ok ⟨.Anonymous, none, none⟩) ws0).1.sent = []) := by
  have h1 := (C3_silent_reject
    { env0 with lookup := fun _ => .error .AccountNotFound } ws0).2
    "k" none none .AccountNotFound rfl
  have h2 := (C3_silent_reject env0 ws0).1 none none
  exact ⟨⟨h1.2, h1.1⟩, ⟨h2.2, h2.1⟩⟩

/-! ## C4 — reconnect tokens -/

/-- C4: an authenticated hello (directory lookup succeeded) with no
explicit subdomain but a reconnect token is admitted verbatim from the
token payload with `is_anonymous = true` when the verifier accepts the
token, and is answered with `ServerHello::AuthFailed` and rejected when
the verifier fails. -/
theorem C4_reconnect_token (env : Env) (ws : WsState) (key : String)
    (tok : ReconnectToken) (a : Uuid) (hl : env.lookup key = .ok a) :
    (∀ payload, env.verify tok = .ok payload →
      (auth_client env (.ok ⟨.Auth key, none, some tok⟩) ws).1.sent = ws.sent
      ∧ (auth_client env (.ok ⟨.Auth key, none, some tok⟩) ws).2
          = some ⟨payload.client_id, payload.sub_domain, true⟩)
    ∧ (∀ e, env.verify tok = .error e →
      (auth_client env (.ok ⟨.Auth key, none, some tok⟩) ws).1.sent
          = ws.sent ++ [ServerHello.AuthFailed]
      ∧ (auth_client env (.ok ⟨.Auth key, none, some tok⟩) ws).2 = none) := by
  constructor
  · intro payload hv
    simp only [auth_client, hl, handle_reconnect_token, hv]
    constructor <;> trivial
  · intro e hv
    simp only [auth_client, hl, handle_reconnect_token, hv, wsSend]
    constructor <;> trivial

/-- C4 witness: under `env0` (verifier accepts every token with payload
`{client_id = 7, sub_domain = "prev"}`), a subdomain-less hello with a
token is admitted as client 7 on `"prev"` with `is_anonymous = true`. -/
theorem C4_witness :
    (auth_client env0 (.ok ⟨.Auth "k", none, some ⟨0⟩⟩) ws0).1.sent = []
    ∧ (auth_client env0 (.ok ⟨.Auth "k", none, some ⟨0⟩⟩) ws0).2
        = some ⟨⟨7⟩, "prev", true⟩ := by
  exact (C4_reconnect_token env0 ws0 "k" ⟨0⟩ ⟨0⟩ rfl).1 ⟨⟨7⟩, "prev"⟩ rfl

/-! ## C6 — fresh anonymous admission -/

/-- C6: an authenticated hello (directory lookup succeeded) carrying
neither a subdomain nor a reconnect token is admitted with the freshly
generated client identifier, the freshly generated random subdomain, and
`is_anonymous = true`, sending nothing. -/
theorem C6_fresh_anonymous (env : Env) (ws : WsState) (key : String)
    (a : Uuid) (hl : env.lookup key = .ok a) :
    (auth_client env (.ok ⟨.Auth key, none, none⟩) ws).1.sent = ws.sent
    ∧ (auth_client env (.ok ⟨.Auth key, none, none⟩) ws).2
        = some ⟨env.generate_client_id, env.random_domain, true⟩ := by
  simp only [auth_client, hl]
  constructor <;> trivial

/-- C6 witness: under `env0` the bare authenticated hello is admitted as
the generated client 2 on the generated domain `"rand0m"`, anonymously. -/
theorem C6_witness :
    (auth_client env0 (.ok ⟨.Auth "k", none, none⟩) ws0).1.sent = []
    ∧ (auth_client env0 (.ok ⟨.Auth "k", none, none⟩) ws0).2
        = some ⟨⟨2⟩, "rand0m", true⟩ := by
  exact C6_fresh_anonymous env0 ws0 "k" ⟨0⟩ rfl

/-! ## Helper lemmas about traces -/

/-- The negotiator either succeeds with the lowercased name and an
untouched websocket, or sends exactly one message and fails. -/
lemma sanitize_result_cases (env : Env) (ws : WsState) (r : String)
    (cid : ClientId) :
    sanitize_sub_domain_and_pre_validate env ws r cid
        = (ws, some (rust_to_lowercase r))
    ∨ ∃ m, sanitize_sub_domain_and_pre_validate env ws r cid
        = ({ ws with sent := ws.sent ++ [m] }, none) := by
  simp only [sanitize_sub_domain_and_pre_validate, wsSend]
  split
  · exact Or.inr ⟨_, rfl⟩
  · split
    · exact Or.inr ⟨_, rfl⟩
    · split
      · exact Or.inl rfl
      · split
        · exact Or.inr ⟨_, rfl⟩
        · exact Or.inl rfl
      · exact Or.inl rfl

/-- The reconnect-token handler either admits the verified payload with an
untouched websocket, or sends exactly one `AuthFailed` and fails. -/
lemma handle_reconnect_token_result_cases (env : Env)
    (tok : ReconnectToken) (ws : WsState) :
    (∃ p : ReconnectTokenPayload, handle_reconnect_token env tok ws
        = (ws, some ⟨p.client_id, p.sub_domain, true⟩))
    ∨ handle_reconnect_token env tok ws
        = ({ ws with sent := ws.sent ++ [ServerHello.AuthFailed] }, none) := by
  simp only [handle_reconnect_token, wsSend]
  split
  · exact Or.inr rfl
  · exact Or.inl ⟨_, rfl⟩

/-- One handshake attempt leaves the trace unchanged on every admission,
and otherwise appends at most one message. -/
lemma auth_client_trace (env : Env) (parsed : Except DecodeErr ClientHello)
    (ws : WsState) :
    ((auth_client env parsed ws).2.isSome
        → (auth_client env parsed ws).1.sent = ws.sent)
    ∧ ((auth_client env parsed ws).1.sent = ws.sent
        ∨ ∃ m, (auth_client env parsed ws).1.sent = ws.sent ++ [m]) := by
  cases parsed with
  | error e =>
    simp only [auth_client, wsSend]
    exact ⟨fun h => by simp at h, Or.inr ⟨_, rfl⟩⟩
  | ok ch =>
    obtain ⟨ct, sd, tok⟩ := ch
    cases ct with
    | Anonymous => exact ⟨fun _ => by trivial, Or.inl (by trivial)⟩
    | Auth key =>
      cases hl : env.lookup key with
      | error e =>
        simp only [auth_client, hl]
        exact ⟨fun _ => by trivial, Or.inl (by trivial)⟩
      | ok a =>
        cases sd with
        | some r =>
          rcases sanitize_result_cases env ws r (env.client_id_of_key key)
            with hs | ⟨m, hs⟩
          · simp only [auth_client, hl, hs]
            exact ⟨fun _ => by trivial, Or.inl (by trivial)⟩
          · simp only [auth_client, hl, hs]
            exact ⟨fun h => by simp at h, Or.inr ⟨m, rfl⟩⟩
        | none =>
          cases tok with
          | some t =>
            rcases handle_reconnect_token_result_cases env t ws
              with ⟨p, hh⟩ | hh
            · simp only [auth_client, hl, hh]
              exact ⟨fun _ => by trivial, Or.inl (by trivial)⟩
            · simp only [auth_client, hl, hh]
              exact ⟨fun h => by simp at h, Or.inr ⟨_, rfl⟩⟩
          | none =>
            simp only [auth_client, hl]
            exact ⟨fun _ => by trivial, Or.inl (by trivial)⟩

/-! ## C7 — at most one ServerHello per attempt -/

/-- C7: on every execution of one handshake attempt, for every input and
all outcomes of the external calls, at most one `ServerHello` is sent on
the connection, and an admitted outcome sends none. -/
theorem C7_at_most_one_server_hello (env : Env)
    (parsed : Except DecodeErr ClientHello) (f : Nat → Bool) :
    (auth_client env parsed ⟨[], f⟩).1.sent.length ≤ 1
    ∧ (∀ h, (auth_client env parsed ⟨[], f⟩).2 = some h →
        (auth_client env parsed ⟨[], f⟩).1.sent = []) := by
  obtain ⟨h1, h2⟩ := auth_client_trace env parsed ⟨[], f⟩
  constructor
  · rcases h2 with h | ⟨m, h⟩ <;> simp [h]
  · intro h hsome
    exact h1 (by simp [hsome])

/-- C7 witness: a malformed hello sends exactly one message (`AuthFailed`,
length 1 ≤ 1), and a concrete admitted attempt sends none. -/
theorem C7_witness :
    (auth_client env0 (.error ⟨0⟩) ws0).1.sent.length ≤ 1
    ∧ (auth_client env0 (.ok ⟨.Auth "k", none, none⟩) ws0).1.sent = [] := by
  refine ⟨(C7_at_most_one_server_hello env0 (.error ⟨0⟩) (fun _ => true)).1, ?_⟩
  exact (C7_at_most_one_server_hello env0 (.ok ⟨.Auth "k", none, none⟩)
    (fun _ => true)).2 ⟨⟨2⟩, "rand0m", true⟩ rfl

/-! ## Helper lemmas: the transport outcome of a send is never read -/

/-- The negotiator's trace and result do not depend on the transport
outcomes of the sends. -/
lemma sanitize_sendResults_irrel (env : Env) (s : List ServerHello)
    (f g : Nat → Bool) (r : String) (cid : ClientId) :
    (sanitize_sub_domain_and_pre_validate env ⟨s, f⟩ r cid).1.sent
        = (sanitize_sub_domain_and_pre_validate env ⟨s, g⟩ r cid).1.sent
    ∧ (sanitize_sub_domain_and_pre_validate env ⟨s, f⟩ r cid).2
        = (sanitize_sub_domain_and_pre_validate env ⟨s, g⟩ r cid).2 := by
  simp only [sanitize_sub_domain_and_pre_validate, wsSend]
  by_cases h1 : ((rust_to_lowercase r).data.filter
      (fun c => !(rust_char_is_alphanumeric c || c == '-'))).length > 0
  · simp only [if_pos h1]
    constructor <;> trivial
  · simp only [if_neg h1]
    by_cases h2 : env.blocked_sub_domains.contains (rust_to_lowercase r) = true
    · simp only [if_pos h2]
      constructor <;> trivial
    · simp only [if_neg h2]
      cases h3 : env.instance_for_host (rust_to_lowercase r) with
      | error e =>
        cases e with
        | DoesNotServeHost =>
          simp only [h3]
          constructor <;> trivial
        | Other code =>
          simp only [h3]
          constructor <;> trivial
      | ok v =>
        obtain ⟨inst, existing⟩ := v
        simp only [h3]
        by_cases h4 : existing = cid
        · simp only [if_neg (fun hne : existing ≠ cid => hne h4)]
          constructor <;> trivial
        · simp only [if_pos h4]
          constructor <;> trivial

/-- The reconnect-token handler's trace and result do not depend on the
transport outcomes of the sends. -/
lemma handle_reconnect_token_sendResults_irrel (env : Env)
    (tok : ReconnectToken) (s : List ServerHello) (f g : Nat → Bool) :
    (handle_reconnect_token env tok ⟨s, f⟩).1.sent
        = (handle_reconnect_token env tok ⟨s, g⟩).1.sent
    ∧ (handle_reconnect_token env tok ⟨s, f⟩).2
        = (handle_reconnect_token env tok ⟨s, g⟩).2 := by
  cases hv : env.verify tok with
  | error e => simp [handle_reconnect_token, wsSend, hv]
  | ok p => simp [handle_reconnect_token, hv]

/-! ## C10 — transport errors on rejection sends are discarded -/

/-- C10: the messages sent and the handshake outcome are the same function
of the input whatever the transport outcomes of the sends are — in
particular every rejection path that sends a failure `ServerHello` still
terminates as rejected whether or not that message was delivered. -/
theorem C10_transport_errors_discarded (env : Env)
    (parsed : Except DecodeErr ClientHello) (s : List ServerHello)
    (f g : Nat → Bool) :
    (auth_client env parsed ⟨s, f⟩).1.sent
        = (auth_client env parsed ⟨s, g⟩).1.sent
    ∧ (auth_client env parsed ⟨s, f⟩).2 = (auth_client env parsed ⟨s, g⟩).2 := by
  cases parsed with
  | error e => constructor <;> rfl
  | ok ch =>
    obtain ⟨ct, sd, tok⟩ := ch
    cases ct with
    | Anonymous => constructor <;> rfl
    | Auth key =>
      cases hl : env.lookup key with
      | error e =>
        simp only [auth_client, hl]
        constructor <;> trivial
      | ok a =>
        cases sd with
        | some r =>
          obtain ⟨hsent, ho⟩ :=
            sanitize_sendResults_irrel env s f g r (env.client_id_of_key key)
          cases hsf : sanitize_sub_domain_and_pre_validate env ⟨s, f⟩ r
              (env.client_id_of_key key) with
          | mk wsf of =>
            cases hsg : sanitize_sub_domain_and_pre_validate env ⟨s, g⟩ r
                (env.client_id_of_key key) with
            | mk wsg og =>
              rw [hsf, hsg] at hsent ho
              cases of with
              | none =>
                cases og with
                | none =>
                  simp only [auth_client, hl, hsf, hsg]
                  exact ⟨hsent, by trivial⟩
                | some y => simp at ho
              | some x =>
                cases og with
                | none => simp at ho
                | some y =>
                  injection ho with hxy
                  subst hxy
                  simp only [auth_client, hl, hsf, hsg]
                  exact ⟨hsent, by trivial⟩
        | none =>
          cases tok with
          | some t =>
            simp only [auth_client, hl]
            exact handle_reconnect_token_sendResults_irrel env t s f g
          | none =>
            simp only [auth_client, hl]
            constructor <;> trivial

/-! ## C9 — a reconnect token is ignored when a subdomain is requested -/

/-- C9: for a hello carrying both an explicit requested subdomain and a
reconnect token, the verifier is never consulted (replacing it changes
nothing, and so does dropping the token), and when the directory lookup
succeeds the outcome is exactly the subdomain path: the negotiator run
with the credential-derived client id, its success mapped to a
non-anonymous handshake. -/
theorem C9_token_ignored_with_subdomain (env : Env) (ws : WsState)
    (key r : String) (tok : ReconnectToken) :
    (∀ f, auth_client { env with verify := f }
          (.ok ⟨.Auth key, some r, some tok⟩) ws
        = auth_client env (.ok ⟨.Auth key, some r, some tok⟩) ws)
    ∧ auth_client env (.ok ⟨.Auth key, some r, some tok⟩) ws
        = auth_client env (.ok ⟨.Auth key, some r, none⟩) ws
    ∧ (∀ a, env.lookup key = .ok a →
        (auth_client env (.ok ⟨.Auth key, some r, some tok⟩) ws).1.sent
          = (sanitize_sub_domain_and_pre_validate env ws r
              (env.client_id_of_key key)).1.sent
        ∧ (auth_client env (.ok ⟨.Auth key, some r, some tok⟩) ws).2
          = Option.map (fun sd => ⟨env.client_id_of_key key, sd, false⟩)
              (sanitize_sub_domain_and_pre_validate env ws r
                (env.client_id_of_key key)).2) := by
  refine ⟨fun f => rfl, rfl, fun a hl => ?_⟩
  cases hs : sanitize_sub_domain_and_pre_validate env ws r
      (env.client_id_of_key key) with
  | mk ws' o =>
    cases o with
    | none =>
      simp only [auth_client, hl, hs]
      constructor <;> trivial
    | some sd =>
      simp only [auth_client, hl, hs]
      constructor <;> trivial

/-- C9 witness: with `env0` and request `"MyApp"`, the admitted handshake
is exactly the negotiator's success mapped to a non-anonymous handshake,
token present or not. -/
theorem C9_witness :
    (auth_client env0 (.ok ⟨.Auth "k", some "MyApp", some ⟨0⟩⟩) ws0).2
        = Option.map (fun sd => ⟨env0.client_id_of_key "k", sd, false⟩)
            (sanitize_sub_domain_and_pre_validate env0 ws0 "MyApp"
              (env0.client_id_of_key "k")).2 := by
  exact ((C9_token_ignored_with_subdomain env0 ws0 "k" "MyApp" ⟨0⟩).2.2
    ⟨0⟩ rfl).2

/-! ## C8 — account-directory lookup result mapping -/

/-- C8: the directory lookup propagates a backend error in its own
backend-failure category (`AuthDbGetItem`); a successful call with no
item, or an item without the account-id attribute, or an attribute that is
not a string, yields `AccountNotFound`; a string attribute that fails to
parse as a UUID yields `InvalidAccountId`; otherwise the parsed identifier
is returned. -/
theorem C8_lookup_result_mapping
    (parseUuid : String → Except UuidErr Uuid)
    (getItemResult : Except RusotoErr GetItemOutput) :
    (∀ e, getItemResult = .error e →
      get_account_id_for_auth_key parseUuid getItemResult
        = .error (.AuthDbGetItem e))
    ∧ (∀ out, getItemResult = .ok out → out.item = none →
      get_account_id_for_auth_key parseUuid getItemResult
        = .error .AccountNotFound)
    ∧ (∀ out m, getItemResult = .ok out → out.item = some m →
      m.lookup ACCOUNT_ID = none →
      get_account_id_for_auth_key parseUuid getItemResult
        = .error .AccountNotFound)
    ∧ (∀ out m av, getItemResult = .ok out → out.item = some m →
      m.lookup ACCOUNT_ID = some av → av.s = none →
      get_account_id_for_auth_key parseUuid getItemResult
        = .error .AccountNotFound)
    ∧ (∀ out str e, getItemResult = .ok out →
      (((out.item.getD []).lookup ACCOUNT_ID).getD default).s = some str →
      parseUuid str = .error e →
      get_account_id_for_auth_key parseUuid getItemResult
        = .error (.InvalidAccountId e))
    ∧ (∀ out str u, getItemResult = .ok out →
      (((out.item.getD []).lookup ACCOUNT_ID).getD default).s = some str →
      parseUuid str = .ok u →
      get_account_id_for_auth_key parseUuid getItemResult = .ok u) := by
  refine ⟨fun e he => ?_, fun out hout hitem => ?_,
    fun out m hout hitem hlk => ?_, fun out m av hout hitem hlk hs => ?_,
    fun out str e hout hattr hp => ?_, fun out str u hout hattr hp => ?_⟩
  · rw [he]
    rfl
  · subst hout
    simp [get_account_id_for_auth_key, hitem]
  · subst hout
    simp [get_account_id_for_auth_key, hitem, hlk]
  · subst hout
    simp [get_account_id_for_auth_key, hitem, hlk, hs]
  · subst hout
    simp [get_account_id_for_auth_key, hattr, hp]
  · subst hout
    simp [get_account_id_for_auth_key, hattr, hp]

/-- C8 witness: a backend error maps to `AuthDbGetItem`; an item carrying
`account_id = "u"` with a parser accepting `"u"` as UUID 42 returns that
identifier. -/
theorem C8_witness :
    get_account_id_for_auth_key (fun _ => .ok ⟨42⟩) (.error ⟨3⟩)
        = .error (.AuthDbGetItem ⟨3⟩)
    ∧ get_account_id_for_auth_key (fun _ => .ok ⟨42⟩)
        (.ok ⟨some [("account_id", ⟨some "u"⟩)]⟩) = .ok ⟨42⟩ := by
  constructor
  · exact (C8_lookup_result_mapping (fun _ => .ok ⟨42⟩) (.error ⟨3⟩)).1 ⟨3⟩ rfl
  · exact (C8_lookup_result_mapping (fun _ => .ok ⟨42⟩)
      (.ok ⟨some [("account_id", ⟨some "u"⟩)]⟩)).2.2.2.2.2
      ⟨some [("account_id", ⟨some "u"⟩)]⟩ "u" ⟨42⟩ rfl (by decide) rfl
